import Mathlib

/-!
Verification of the quiz-generation service (`src/app.py`).

The development embeds the Python source shallowly:

* `urlparse`, `parse_qsl`, `parse_qs_values` model the used fragment of
  Python's `urllib.parse` (the library collaborator of
  `extract_video_id`).  The model covers scheme/netloc/path/query/fragment
  splitting, hostname extraction (userinfo, port, bracketed-host and
  lowercasing included) and query-string decoding with `+` and ASCII
  percent-escapes; multi-byte UTF-8 percent-escapes and the leading
  control-character stripping of CPython are not modelled, no claim
  depends on them.
* `extract_video_id`, `fetch_transcript`, `generate_mcqs` and
  `generate_quiz` are translated from `src/app.py` line by line.  Python
  exceptions become `Except PyExc`; the external transcript provider and
  the generative-model provider become explicit environment records
  (`TranscriptApi`, `GenAI`) whose methods may return any value or raise
  any exception.
* `generate_quiz` additionally records the external calls the handler
  makes (`HandlerCall`) so that "step never invoked" properties are
  statable.
-/

/-- Python exception values, as far as the source distinguishes them:
`ValueError` raised by `extract_video_id`, `KeyError` raised by a dict
subscript, `NoTranscriptFound` / `TranscriptsDisabled` from the transcript
library, and a catch-all constructor for every other exception. -/
inductive PyExc where
  | valueError (msg : String)
  | keyError (key : String)
  | noTranscriptFound
  | transcriptsDisabled
  | other (msg : String)
deriving DecidableEq, Repr

deriving instance DecidableEq for Except

/-! ## Model of `urllib.parse` (library collaborator) -/

/-- Split a character list at the first occurrence of `c`:
`(before, some after)` when `c` occurs, `(l, none)` otherwise.
Models Python's `str.split(c, 1)` / `str.partition(c)`. -/
def breakOnChar (c : Char) : List Char → List Char × Option (List Char)
  | [] => ([], none)
  | x :: xs =>
    if x = c then ([], some xs)
    else
      let (a, b) := breakOnChar c xs
      (x :: a, b)

/-- The part of `l` after the last occurrence of `c` (`l` itself when `c`
does not occur): Python's `l.rpartition(c)[2]` as used for stripping the
userinfo from a netloc. -/
def afterLastChar (c : Char) (l : List Char) : List Char :=
  (l.splitOn c).getLastD []

/-- Characters allowed in a URL scheme after the leading letter
(`urllib.parse.scheme_chars`). -/
def isSchemeChar (c : Char) : Bool :=
  c.isAlpha || c.isDigit || c = '+' || c = '-' || c = '.'

/-- Scheme splitting of `urllib.parse.urlsplit`: when the text before the
first `:` is a non-empty run of scheme characters starting with a letter,
the scheme is that text lowercased and parsing continues after the `:`;
otherwise there is no scheme and the input is left whole. -/
def splitScheme (l : List Char) : List Char × List Char :=
  match breakOnChar ':' l with
  | (before, some after) =>
    match before with
    | [] => ([], l)
    | c0 :: rest =>
      if c0.isAlpha && (c0 :: rest).all isSchemeChar then
        ((c0 :: rest).map Char.toLower, after)
      else ([], l)
  | (_, none) => ([], l)

/-- Consume netloc characters up to the first `/`, `?` or `#`
(`urllib.parse.urlsplit` netloc scan); returns the netloc and the rest
starting at the delimiter. -/
def takeNetloc : List Char → List Char × List Char
  | [] => ([], [])
  | c :: cs =>
    if c = '/' || c = '?' || c = '#' then ([], c :: cs)
    else
      let (a, b) := takeNetloc cs
      (c :: a, b)

/-- Netloc extraction: present exactly when the remaining text starts with
`//`. -/
def splitNetloc (l : List Char) : List Char × List Char :=
  match l with
  | '/' :: '/' :: rest => takeNetloc rest
  | _ => ([], l)

/-- Host part of a netloc (`urllib.parse` `_hostinfo`): drop the userinfo
up to the last `@`, then either the bracketed host after `[` up to `]`, or
the text before the first `:` (the port separator). -/
def hostFromNetloc (netloc : List Char) : List Char :=
  let hostinfo := afterLastChar '@' netloc
  match breakOnChar '[' hostinfo with
  | (_, some bracketed) => (breakOnChar ']' bracketed).1
  | (_, none) => (breakOnChar ':' hostinfo).1

/-- Result of `urllib.parse.urlparse` restricted to the fields the source
reads, plus the derived `hostname` property (lowercased host, `none` when
empty). -/
structure ParseResult where
  scheme : String
  netloc : String
  path : String
  query : String
  fragment : String
  hostname : Option String
deriving DecidableEq, Repr

/-- Model of `urllib.parse.urlparse`: split off the scheme, then the
netloc after `//`, then the fragment at the first `#`, then the query at
the first `?`; the hostname is derived from the netloc. -/
def urlparse (url : String) : ParseResult :=
  let (scheme, rest1) := splitScheme url.data
  let (netloc, rest2) := splitNetloc rest1
  let (rest3, fragment) := breakOnChar '#' rest2
  let (path, query) := breakOnChar '?' rest3
  let host := hostFromNetloc netloc
  { scheme := String.mk scheme
    netloc := String.mk netloc
    path := String.mk path
    query := String.mk (query.getD [])
    fragment := String.mk (fragment.getD [])
    hostname := if host = [] then none
                else some (String.mk (host.map Char.toLower)) }

/-- Hexadecimal digit value for percent-decoding. -/
def hexVal (c : Char) : Option Nat :=
  if '0' ≤ c ∧ c ≤ '9' then some (c.toNat - '0'.toNat)
  else if 'a' ≤ c ∧ c ≤ 'f' then some (c.toNat - 'a'.toNat + 10)
  else if 'A' ≤ c ∧ c ≤ 'F' then some (c.toNat - 'A'.toNat + 10)
  else none

/-- Model of `urllib.parse.unquote` (`unquote_to_bytes` algorithm): split
on `%`; each later bit starting with two hex digits contributes the
decoded character plus its remainder, any other bit is kept with its `%`.
ASCII percent-escapes only; multi-byte sequences are out of the model's
scope. -/
def unquote_chars (l : List Char) : List Char :=
  match l.splitOn '%' with
  | [] => []
  | first :: bits =>
    first ++ (bits.map fun item =>
      match item with
      | a :: b :: rest =>
        match hexVal a, hexVal b with
        | some ha, some hb => Char.ofNat (16 * ha + hb) :: rest
        | _, _ => '%' :: item
      | _ => '%' :: item).flatten

/-- Model of `urllib.parse.unquote_plus`: replace `+` by a space, then
percent-decode. -/
def unquote_plus (l : List Char) : List Char :=
  unquote_chars (l.map fun c => if c = '+' then ' ' else c)

/-- Model of `urllib.parse.parse_qsl` with default arguments: fields are
separated by `&`; a field without `=` or with an empty value is skipped
(`keep_blank_values=False`); names and values are `unquote_plus`-decoded. -/
def parse_qsl (qs : String) : List (String × String) :=
  (qs.data.splitOn '&').filterMap fun field =>
    match breakOnChar '=' field with
    | (_, none) => none
    | (name, some value) =>
      if value = [] then none
      else some (String.mk (unquote_plus name), String.mk (unquote_plus value))

/-- The value list `parse_qs(qs)[key]` would hold: all values of `key` in
field order (the dict entry exists iff this list is non-empty). -/
def parse_qs_values (qs : String) (key : String) : List String :=
  (parse_qsl qs).filterMap fun p => if p.1 = key then some p.2 else none

/-! ## `extract_video_id` (src/app.py lines 32-39) -/

/-- Translation of `extract_video_id`: short-link host returns the path
with the leading `/` stripped; a canonical host with path `/watch` returns
`parse_qs(query)['v'][0]` (a `KeyError` when `v` is absent); every other
combination falls through to `raise ValueError("Invalid YouTube URL")`. -/
def extract_video_id (youtube_url : String) : Except PyExc String :=
  let parsed_url := urlparse youtube_url
  if parsed_url.hostname = some "youtu.be" then
    .ok (parsed_url.path.drop 1)
  else if parsed_url.hostname = some "www.youtube.com" ∨
          parsed_url.hostname = some "youtube.com" then
    if parsed_url.path = "/watch" then
      match parse_qs_values parsed_url.query "v" with
      | [] => .error (.keyError "v")
      | v :: _ => .ok v
    else .error (.valueError "Invalid YouTube URL")
  else .error (.valueError "Invalid YouTube URL")

example : extract_video_id "https://youtu.be/abc123" = .ok "abc123" := by decide
example : extract_video_id "https://www.youtube.com/watch?v=abc123&t=10" = .ok "abc123" := by decide
example : extract_video_id "https://youtube.com/watch?v=xy" = .ok "xy" := by decide
example : extract_video_id "https://example.com/watch?v=abc" =
    .error (.valueError "Invalid YouTube URL") := by decide
example : extract_video_id "https://www.youtube.com/watch?t=10" =
    .error (.keyError "v") := by decide
example : extract_video_id "https://www.youtube.com/playlist?list=PL" =
    .error (.valueError "Invalid YouTube URL") := by decide

/-! ## Model of the transcript provider (`youtube_transcript_api`) -/

/-- One caption fragment as `transcript.fetch()` returns it: the source
only reads `entry['text']`. -/
structure TranscriptEntry where
  text : String
deriving DecidableEq, Repr

/-- A selected transcript: `fetch()` may return the caption fragments or
raise. -/
structure Transcript where
  fetch : Except PyExc (List TranscriptEntry)

/-- A transcript list as returned by `list_transcripts`:
`find_transcript(languages)` may return a transcript or raise (in
particular `NoTranscriptFound`). -/
structure TranscriptList where
  find_transcript : List String → Except PyExc Transcript

/-- The external transcript provider: `list_transcripts(video_id)` may
return a transcript list or raise any exception. -/
structure TranscriptApi where
  list_transcripts : String → Except PyExc TranscriptList

/-! ## `fetch_transcript` (src/app.py lines 41-58) -/

/-- The inner `try/except NoTranscriptFound` of `fetch_transcript`
(lines 46-49): try the primary language `en`; exactly on
`NoTranscriptFound` retry with the fallback language `hi`; any other
outcome (success or a different exception) passes through. -/
def select_transcript (transcript_list : TranscriptList) : Except PyExc Transcript :=
  match transcript_list.find_transcript ["en"] with
  | .error .noTranscriptFound => transcript_list.find_transcript ["hi"]
  | r => r

/-- The body of `fetch_transcript`'s outer `try` block (lines 42-53):
extract the id, list the transcripts, select a language, fetch the
fragments and join their texts with single spaces. -/
def fetch_transcript_body (api : TranscriptApi) (video_url : String) :
    Except PyExc String := do
  let video_id ← extract_video_id video_url
  let transcript_list ← api.list_transcripts video_id
  let transcript ← select_transcript transcript_list
  let fetched_transcript ← transcript.fetch
  pure (" ".intercalate (fetched_transcript.map fun entry => entry.text))

/-- Translation of `fetch_transcript`: the outer `except Exception`
(lines 55-58) logs the error and returns the empty string, so the function
always returns a plain string. -/
def fetch_transcript (api : TranscriptApi) (video_url : String) : String :=
  match fetch_transcript_body api video_url with
  | .ok full_text => full_text
  | .error _ => ""

/-! ## `generate_mcqs` (src/app.py lines 60-127) -/

/-- The f-string prompt of `generate_mcqs` (lines 61-118).  The
`num_questions` parameter is in scope in the source but never
interpolated; the text hard-codes "10 MCQs".  The triple-quoted marks
around the transcript are the literal `\"\"\"` of the source. -/
def mcq_prompt (transcript_text : String) (num_questions : Nat) : String :=
  "
You are an AI assistant designed to generate high-quality, professional multiple-choice questions (MCQs) from educational video content.

Your task is to:
- Understand the core concepts from the transcript of a YouTube video.
- Generate concept-based MCQs suitable for undergraduate-level Computer Science students.
- Avoid referring to the transcript directly (e.g., do not use \"according to the transcript\" or \"according to the text\" or “according to the video” or “as stated above”).
- Make questions sound natural and exam-ready.

Each question must:
- Be clear and technically accurate.
- Have exactly one correct answer and three related but wrong distractions.
- Target medium-difficulty level.
- Be based on topics typically found in BTech CSE, such as programming, data structures, algorithms, machine learning, and academic subjects also like engineering physics, engineering mathematics, engineering chemistry, fundamentals of electronics and electrical etc.

---

Here are some example questions for reference:

Example 1:
1. What is the time complexity of inserting an element into a max-heap?
    A. O(log n)  
    B. O(1)  
    C. O(n log n)  
    D. O(n²)  
Answer: A

Example 2:
2. Which of the following is NOT a valid use-case for a hash table?
    A. Implementing a dictionary  
    B. Storing hierarchical data like XML  
    C. Caching data  
    D. Checking for duplicates in a list  
Answer: B

Example 3:
3. In supervised learning, which of the following best defines the \"training dataset\"?
    A. A dataset used only to test the model’s performance  
    B. A dataset containing input-output pairs used to teach the model  
    C. A dataset with only input features and no labels  
    D. A dataset created from real-time user interactions  
Answer: B

---

Now, generate 10 MCQs based on the following transcript:

Transcript:
\"\"\"" ++ transcript_text ++ "\"\"\"

Output format:
1. Question?
    A. Option1
    B. Option2
    C. Option3
    D. Option4
Answer: A
"

/-- The external generative-model provider:
`GenerativeModel(model_name).generate_content(prompt)` may return a
response text or raise any exception. -/
structure GenAI where
  generate_content : String → String → Except PyExc String

/-- Translation of `generate_mcqs`: build the prompt, submit it to the
`gemini-2.0-flash` model and return the stripped response text; the
`try/except` (lines 120-127) turns any provider error into the empty
string.  `num_questions` defaults to 10 at the single call site. -/
def generate_mcqs (genai : GenAI) (transcript_text : String)
    (num_questions : Nat) : String :=
  let prompt := mcq_prompt transcript_text num_questions
  match genai.generate_content "gemini-2.0-flash" prompt with
  | .ok text => text.trim
  | .error _ => ""

/-! ## `generate_quiz` (src/app.py lines 130-152) -/

/-- Body of an HTTP response: either `jsonify({"error": msg})` or
`jsonify({"quiz": text})`. -/
inductive RespBody where
  | err (msg : String)
  | quiz (text : String)
deriving DecidableEq, Repr

/-- An HTTP response: status code and JSON body (Flask's default status
for a bare `jsonify(...)` return is 200). -/
structure Response where
  status : Nat
  body : RespBody
deriving DecidableEq, Repr

/-- Instrumentation of the embedding: the external steps the handler
invokes, in order. -/
inductive HandlerCall where
  | callFetch (video_url : String)
  | callGen (transcript : String)
deriving DecidableEq, Repr

/-- Translation of the `/generate-quiz` handler `generate_quiz`.

`request_json` stands for the body-parsing prologue
`data = request.json; video_url = data.get("video_url")`, the one part of
the `try` block besides the two total steps that can raise (e.g. `data`
being `None`); an exception there is handled by the outer
`except Exception` (lines 149-152) as a 500 "Internal server error".
`if not video_url` is true for a missing field and for the empty string.
The second component records the external calls made. -/
def generate_quiz (tapi : TranscriptApi) (genai : GenAI)
    (request_json : Except PyExc (Option String)) : Response × List HandlerCall :=
  match request_json with
  | .error _ => (⟨500, .err "Internal server error"⟩, [])
  | .ok video_url =>
    match video_url with
    | none => (⟨400, .err "video_url is required"⟩, [])
    | some url =>
      if url = "" then (⟨400, .err "video_url is required"⟩, [])
      else
        let transcript := fetch_transcript tapi url
        if transcript = "" then
          (⟨500, .err "Could not fetch transcript"⟩, [.callFetch url])
        else
          let mcqs_text := generate_mcqs genai transcript 10
          if mcqs_text = "" then
            (⟨500, .err "Failed to generate MCQs"⟩,
             [.callFetch url, .callGen transcript])
          else
            (⟨200, .quiz mcqs_text⟩, [.callFetch url, .callGen transcript])

/-- The spec's four-step linear state machine for the handler (§4.4),
written from the spec's words over abstract retrieval and generation
steps: 400 on a missing or empty `video_url` with no step invoked; 500
"Could not fetch transcript" on an empty retrieval result with the
generation step never invoked; 500 "Failed to generate MCQs" on an empty
generation result; otherwise 200 with the generation result verbatim. -/
def quizHandlerSpec (retrieve generate : String → String)
    (body : Option String) : Response × List HandlerCall :=
  if body = none ∨ body = some "" then
    (⟨400, .err "video_url is required"⟩, [])
  else
    let url := body.getD ""
    let transcript := retrieve url
    if transcript = "" then
      (⟨500, .err "Could not fetch transcript"⟩, [.callFetch url])
    else
      let quiz := generate transcript
      if quiz = "" then
        (⟨500, .err "Failed to generate MCQs"⟩,
         [.callFetch url, .callGen transcript])
      else
        (⟨200, .quiz quiz⟩, [.callFetch url, .callGen transcript])

/-! ## Claim theorems -/

/-- C3: for every URL whose hostname is the short-link domain `youtu.be`,
`extract_video_id` returns the URL's path component with the leading `/`
stripped. -/
theorem extract_video_id_shortlink (url : String)
    (h : (urlparse url).hostname = some "youtu.be") :
    extract_video_id url = .ok ((urlparse url).path.drop 1) := by
  unfold extract_video_id
  simp [h]

/-- C3 witness: the short-link URL of the spec yields `abc123`. -/
theorem extract_video_id_shortlink_witness :
    (urlparse "https://youtu.be/abc123").hostname = some "youtu.be" ∧
    extract_video_id "https://youtu.be/abc123" = .ok "abc123" :=
  ⟨by decide, extract_video_id_shortlink "https://youtu.be/abc123" (by decide)⟩

/-- C4: for every URL whose hostname is `www.youtube.com` or `youtube.com`
and whose path is `/watch`, `extract_video_id` returns the first value of
the `v` query parameter. -/
theorem extract_video_id_watch (url : String) (v : String) (vs : List String)
    (hhost : (urlparse url).hostname = some "www.youtube.com" ∨
             (urlparse url).hostname = some "youtube.com")
    (hpath : (urlparse url).path = "/watch")
    (hv : parse_qs_values (urlparse url).query "v" = v :: vs) :
    extract_video_id url = .ok v := by
  unfold extract_video_id
  rcases hhost with h | h <;> simp [h, hpath, hv]

/-- C4 witness: the canonical URL of the spec yields `abc123`. -/
theorem extract_video_id_watch_witness :
    extract_video_id "https://www.youtube.com/watch?v=abc123&t=10" = .ok "abc123" :=
  extract_video_id_watch "https://www.youtube.com/watch?v=abc123&t=10"
    "abc123" [] (Or.inl (by decide)) (by decide) (by decide)

/-- C5: for every URL whose host/path combination is neither the
short-link domain nor the canonical domain with the `/watch` endpoint,
`extract_video_id` fails with `ValueError("Invalid YouTube URL")` — it
never returns an identifier for such a URL. -/
theorem extract_video_id_invalid (url : String)
    (h1 : (urlparse url).hostname ≠ some "youtu.be")
    (h2 : ¬(((urlparse url).hostname = some "www.youtube.com" ∨
             (urlparse url).hostname = some "youtube.com") ∧
            (urlparse url).path = "/watch")) :
    extract_video_id url = .error (.valueError "Invalid YouTube URL") := by
  unfold extract_video_id
  dsimp only
  split_ifs with ha hb hc
  · exact absurd ha h1
  · exact absurd ⟨hb, hc⟩ h2
  · rfl
  · rfl

/-- C5 witness: an unrelated host fails with the invalid-URL error. -/
theorem extract_video_id_invalid_witness :
    extract_video_id "https://example.com/watch?v=abc" =
      .error (.valueError "Invalid YouTube URL") :=
  extract_video_id_invalid "https://example.com/watch?v=abc"
    (by decide) (by decide)

/-- C10: for every URL with a canonical hostname and path `/watch` whose
query string yields no `v` entry, `extract_video_id` raises `KeyError`,
not the `ValueError("Invalid YouTube URL")`. -/
theorem extract_video_id_watch_no_v (url : String)
    (hhost : (urlparse url).hostname = some "www.youtube.com" ∨
             (urlparse url).hostname = some "youtube.com")
    (hpath : (urlparse url).path = "/watch")
    (hv : parse_qs_values (urlparse url).query "v" = []) :
    extract_video_id url = .error (.keyError "v") ∧
    extract_video_id url ≠ .error (.valueError "Invalid YouTube URL") := by
  have hres : extract_video_id url = .error (.keyError "v") := by
    unfold extract_video_id
    rcases hhost with h | h <;> simp [h, hpath, hv]
  exact ⟨hres, by rw [hres]; decide⟩

/-- C10 witness: `/watch` without a `v` parameter raises `KeyError`. -/
theorem extract_video_id_watch_no_v_witness :
    extract_video_id "https://www.youtube.com/watch?t=10" =
      .error (.keyError "v") :=
  (extract_video_id_watch_no_v "https://www.youtube.com/watch?t=10"
    (Or.inl (by decide)) (by decide) (by decide)).1

/-- C6 witness stub: a provider where the primary language is missing
(`NoTranscriptFound`) and the fallback language succeeds. -/
def tlEnMissing : TranscriptList :=
  ⟨fun langs => if langs = ["hi"] then .ok ⟨.ok [⟨"नमस्ते"⟩]⟩
                else .error .noTranscriptFound⟩

/-- C6: language selection first attempts `en`; it retries with `hi`
exactly when the `en` attempt fails with `NoTranscriptFound`, and on any
other outcome of the `en` attempt (success or a different exception) the
fallback is not consulted. -/
theorem select_transcript_fallback_iff (tl : TranscriptList) :
    (tl.find_transcript ["en"] = .error .noTranscriptFound →
      select_transcript tl = tl.find_transcript ["hi"]) ∧
    (tl.find_transcript ["en"] ≠ .error .noTranscriptFound →
      select_transcript tl = tl.find_transcript ["en"]) := by
  constructor
  · intro h
    rw [select_transcript, h]
  · intro h
    rw [select_transcript]
    rcases hen : tl.find_transcript ["en"] with e | t
    · cases e <;> simp_all
    · simp

/-- C6 witness: with `en` unavailable the fallback result is selected. -/
theorem select_transcript_fallback_iff_witness :
    select_transcript tlEnMissing = tlEnMissing.find_transcript ["hi"] :=
  (select_transcript_fallback_iff tlEnMissing).1 rfl

/-- C2 witness stub: a provider where both languages fail, the primary
with `NoTranscriptFound` and the fallback with a generic error. -/
def tlNoLanguages : TranscriptList :=
  ⟨fun langs => if langs = ["en"] then .error .noTranscriptFound
                else .error (.other "hi unavailable")⟩

/-- C2 witness stub: a transcript provider that always lists
`tlNoLanguages`. -/
def apiNoLanguages : TranscriptApi := ⟨fun _ => .ok tlNoLanguages⟩

/-- C2: `fetch_transcript` never propagates an exception (its result type
is a plain string): whenever any step of its body fails — listing,
selection or fetching, including the transcript being available in
neither `en` nor `hi` — the result is the empty string. -/
theorem fetch_transcript_absorbs_failures (api : TranscriptApi) (video_url : String) :
    (∀ e : PyExc, fetch_transcript_body api video_url = .error e →
      fetch_transcript api video_url = "") ∧
    (∀ (video_id : String) (tl : TranscriptList) (e : PyExc),
      extract_video_id video_url = .ok video_id →
      api.list_transcripts video_id = .ok tl →
      tl.find_transcript ["en"] = .error .noTranscriptFound →
      tl.find_transcript ["hi"] = .error e →
      fetch_transcript api video_url = "") := by
  constructor
  · intro e h
    rw [fetch_transcript, h]
  · intro video_id tl e h1 h2 h3 h4
    rw [fetch_transcript, fetch_transcript_body]
    simp only [h1, h2, bind, Except.bind, select_transcript, h3, h4]

/-- C2 witness: with no transcript in either language the result is the
empty string. -/
theorem fetch_transcript_absorbs_failures_witness :
    fetch_transcript apiNoLanguages "https://youtu.be/a" = "" :=
  (fetch_transcript_absorbs_failures apiNoLanguages "https://youtu.be/a").2
    "a" tlNoLanguages (.other "hi unavailable") (by decide) rfl rfl rfl

/-- C7 witness stubs: a transcript of two fragments. -/
def trTwoFragments : Transcript := ⟨.ok [⟨"hello"⟩, ⟨"world"⟩]⟩

/-- C7 witness stub: a transcript list selecting `trTwoFragments`. -/
def tlTwoFragments : TranscriptList := ⟨fun _ => .ok trTwoFragments⟩

/-- C7 witness stub: a provider listing `tlTwoFragments`. -/
def apiTwoFragments : TranscriptApi := ⟨fun _ => .ok tlTwoFragments⟩

/-- C7: whenever the pipeline succeeds through extraction, listing,
selection and fetching, the transcript text is the fragments' `text`
fields joined with exactly one space between consecutive fragments, in
the original fragment order (`String.intercalate " "`). -/
theorem fetch_transcript_joins_fragments (api : TranscriptApi)
    (video_url video_id : String) (tl : TranscriptList) (t : Transcript)
    (entries : List TranscriptEntry)
    (h1 : extract_video_id video_url = .ok video_id)
    (h2 : api.list_transcripts video_id = .ok tl)
    (h3 : select_transcript tl = .ok t)
    (h4 : t.fetch = .ok entries) :
    fetch_transcript api video_url =
      " ".intercalate (entries.map TranscriptEntry.text) := by
  rw [fetch_transcript, fetch_transcript_body]
  simp only [h1, h2, h3, h4, bind, Except.bind, pure, Except.pure]

/-- C7 witness: two fragments come out space-joined in order. -/
theorem fetch_transcript_joins_fragments_witness :
    fetch_transcript apiTwoFragments "https://youtu.be/a" = "hello world" :=
  fetch_transcript_joins_fragments apiTwoFragments "https://youtu.be/a" "a"
    tlTwoFragments trTwoFragments [⟨"hello"⟩, ⟨"world"⟩]
    (by decide) rfl rfl rfl

/-- C1: for every provider pair and every parsed request body, the handler
follows the spec's linear four-step state machine `quizHandlerSpec`
instantiated with the source's retrieval and generation steps: 400 with
`{"error":"video_url is required"}` on a missing or empty `video_url`;
500 with `{"error":"Could not fetch transcript"}` on an empty transcript,
the generation step never invoked (its call is absent from the trace);
500 with `{"error":"Failed to generate MCQs"}` on an empty generation
result; otherwise 200 with `{"quiz": <the generation result>}` verbatim. -/
theorem generate_quiz_follows_state_machine (tapi : TranscriptApi)
    (genai : GenAI) (body : Option String) :
    generate_quiz tapi genai (.ok body) =
      quizHandlerSpec (fetch_transcript tapi)
        (fun t => generate_mcqs genai t 10) body := by
  cases body with
  | none => rfl
  | some url =>
    by_cases h : url = "" <;> simp [generate_quiz, quizHandlerSpec, h]

/-- C9: the prompt of `generate_mcqs` is character-for-character
independent of `num_questions` (the f-string never interpolates it), so
for any provider the function's result is the same at any two values of
`num_questions`. -/
theorem generate_mcqs_ignores_num_questions (genai : GenAI)
    (transcript_text : String) (n m : Nat) :
    mcq_prompt transcript_text n = mcq_prompt transcript_text m ∧
    generate_mcqs genai transcript_text n = generate_mcqs genai transcript_text m :=
  ⟨rfl, rfl⟩

/-- C8 stubs: a transcript provider and a generation provider that always
succeed, for exercising the handler on a malformed URL. -/
def tlStub : TranscriptList := ⟨fun _ => .ok ⟨.ok [⟨"stub"⟩]⟩⟩

/-- C8 stub: provider listing `tlStub` for every video id. -/
def apiStub : TranscriptApi := ⟨fun _ => .ok tlStub⟩

/-- C8 stub: generation provider returning a fixed quiz text. -/
def genaiStub : GenAI := ⟨fun _ _ => .ok "1. Question?"⟩

/-- C8 counterexample: a malformed `video_url` (identifier extraction
raises `ValueError`) is NOT converted by the outer catch-all into
`{"error":"Internal server error"}`: `fetch_transcript` catches the
exception first and returns `""`, so the handler responds 500 with
`{"error":"Could not fetch transcript"}`. -/
theorem generate_quiz_malformed_url_counterexample :
    extract_video_id "https://vimeo.com/123" =
      .error (.valueError "Invalid YouTube URL") ∧
    (generate_quiz apiStub genaiStub (.ok (some "https://vimeo.com/123"))).1 =
      ⟨500, .err "Could not fetch transcript"⟩ ∧
    RespBody.err "Could not fetch transcript" ≠
      RespBody.err "Internal server error" := by
  refine ⟨by decide, by decide, by decide⟩

/-- C8 amended: a malformed `video_url` never reaches the outer
catch-all — extraction errors are absorbed inside `fetch_transcript`, so
the handler responds 500 `{"error":"Could not fetch transcript"}`; the
catch-all produces 500 `{"error":"Internal server error"}` for exceptions
raised before the steps (body parsing). -/
theorem generate_quiz_malformed_url_amended (tapi : TranscriptApi)
    (genai : GenAI) :
    (∀ (url : String) (e : PyExc), url ≠ "" →
      extract_video_id url = .error e →
      generate_quiz tapi genai (.ok (some url)) =
        (⟨500, .err "Could not fetch transcript"⟩, [.callFetch url])) ∧
    (∀ e : PyExc, generate_quiz tapi genai (.error e) =
      (⟨500, .err "Internal server error"⟩, [])) := by
  constructor
  · intro url e hne hext
    have hfetch : fetch_transcript tapi url = "" := by
      rw [fetch_transcript, fetch_transcript_body]
      simp only [hext, bind, Except.bind]
    simp [generate_quiz, hne, hfetch]
  · intro e
    rfl

/-- C8 amended witness: a concrete malformed URL yields the
could-not-fetch response. -/
theorem generate_quiz_malformed_url_amended_witness :
    generate_quiz apiStub genaiStub (.ok (some "https://vimeo.com/456")) =
      (⟨500, .err "Could not fetch transcript"⟩,
       [.callFetch "https://vimeo.com/456"]) :=
  (generate_quiz_malformed_url_amended apiStub genaiStub).1
    "https://vimeo.com/456" (.valueError "Invalid YouTube URL")
    (by decide) (by decide)
